import Mathlib

/-!
Verification of the harness orchestration core of the
terraform-provider-imagetest repository.

The Go code is shallowly embedded as follows:
- Go maps (string-keyed) are modeled as association lists with
  update-in-place assignment (`mapSet`) and first-match lookup (`mapGet`);
  maps decoded from the framework have pairwise distinct keys.
- `types.String` optional attributes become `Option String`; `ValueString`
  on a null value yields `""` (`optString`).
- External collaborators (`name.ParseReference`, `filepath.Abs`,
  `Timeouts.Create`, `k3s.New`, the `Setup` operation, `Encode`, the
  inventory backing store) are parameters of the embedded functions, so the
  embedding is a function of their observable results.
- The diagnostics collection is an explicit list; an early `return` in Go
  corresponds to producing the final result at that point.
-/

set_option linter.unusedVariables false

namespace Imagetest

/-- Severity of a diagnostic reported through the resource response. -/
inductive DiagSeverity : Type
  | error : DiagSeverity
  | warning : DiagSeverity
  deriving DecidableEq, Repr

/-- A diagnostic entry: a short summary plus a longer detail string, as
produced by `resp.Diagnostics.AddError` / `AddWarning` in the source. -/
structure Diag : Type where
  severity : DiagSeverity
  summary : String
  detail : String
  deriving DecidableEq, Repr

/-- `AddError` produces an error diagnostic. -/
def Diag.err (s d : String) : Diag := ⟨DiagSeverity.error, s, d⟩

/-- `AddWarning` produces a warning diagnostic. -/
def Diag.warn (s d : String) : Diag := ⟨DiagSeverity.warning, s, d⟩

/-- Decidable equality for `Except`, used by the derived instances of the
resource models whose decode steps are represented with `Except`. -/
instance exceptDecEq {ε α : Type} [DecidableEq ε] [DecidableEq α] :
    DecidableEq (Except ε α) := fun a b =>
  match a, b with
  | Except.ok x, Except.ok y =>
    if h : x = y then isTrue (by rw [h])
    else isFalse (fun he => h (by injection he))
  | Except.error x, Except.error y =>
    if h : x = y then isTrue (by rw [h])
    else isFalse (fun he => h (by injection he))
  | Except.ok _, Except.error _ => isFalse (fun he => Except.noConfusion he)
  | Except.error _, Except.ok _ => isFalse (fun he => Except.noConfusion he)

/-- Lookup in the association-list model of a Go map: first entry whose key
matches. -/
def mapGet {α : Type} : List (String × α) → String → Option α
  | [], _ => none
  | p :: rest, k => if p.1 = k then some p.2 else mapGet rest k

/-- Assignment `m[k] = v` in the association-list model of a Go map:
replace the entry with key `k` if present, append a new entry otherwise. -/
def mapSet {α : Type} : List (String × α) → String → α → List (String × α)
  | [], k, v => [(k, v)]
  | p :: rest, k, v => if p.1 = k then (k, v) :: rest else p :: mapSet rest k v

/-- `ValueString()` on a `types.String`: the empty string when null. -/
def optString (s : Option String) : String := s.getD ""

/-- A feature registered in the inventory; only its labels are read by the
orchestration core (src/unnamed/part_000, `ShouldSkip`). -/
structure Feature : Type where
  labels : List (String × String)
  deriving DecidableEq, Repr

/-- The label-match loop of `HarnessResource.ShouldSkip`
(src/unnamed/part_000 lines 120-135), applied after the features of the
harness have been fetched: if no runtime labels are configured the harness
is never skipped; otherwise a feature whose labels contain a filter key
with a different value marks the harness skipped. -/
def shouldSkip (filter : List (String × String)) (feats : List Feature) : Bool :=
  if filter.isEmpty then false
  else
    feats.any (fun feat =>
      filter.any (fun p =>
        match mapGet feat.labels p.1 with
        | some fv => fv != p.2
        | none => false))

/-- The identifier computation of `HarnessResource.ModifyPlan`
(src/unnamed/part_000 lines 71-86): encode the inventory seed with the
store encoder and form `{name}-{encoded-seed}`; an encoder failure aborts
the plan with an error. -/
def modifyPlanId (encode : String → Except String String) (name seed : String) :
    Except String String :=
  match encode seed with
  | Except.error e => Except.error e
  | Except.ok enc => Except.ok (name ++ "-" ++ enc)

/-- `RegistryResourceAuthModel` (harness_k3s_resource.go lines 67-71):
three optional string attributes. -/
structure RegistryResourceAuthModel : Type where
  username : Option String
  password : Option String
  auth : Option String
  deriving DecidableEq, Repr

/-- `RegistryResourceTlsModel` (harness_k3s_resource.go lines 73-77). -/
structure RegistryResourceTlsModel : Type where
  certFile : Option String
  keyFile : Option String
  caFile : Option String
  deriving DecidableEq, Repr

/-- `RegistryResourceMirrorModel` (harness_k3s_resource.go lines 79-81);
the `ElementsAs` decode of the endpoints list is represented by its result. -/
structure RegistryResourceMirrorModel : Type where
  endpoints : Except String (List String)
  deriving DecidableEq, Repr

/-- `RegistryResourceModel` (harness_k3s_resource.go lines 61-65). -/
structure RegistryResourceModel : Type where
  auth : Option RegistryResourceAuthModel
  tls : Option RegistryResourceTlsModel
  mirror : Option RegistryResourceMirrorModel
  deriving DecidableEq, Repr

/-- `ContainerResourceModelNetwork`: a single `name` attribute. -/
structure ContainerResourceModelNetwork : Type where
  name : String
  deriving DecidableEq, Repr

/-- `ContainerResourceMountModel`: source and destination paths. -/
structure ContainerResourceMountModel : Type where
  source : String
  destination : String
  deriving DecidableEq, Repr

/-- `HarnessK3sSandboxResourceModel` (harness_k3s_resource.go lines 83-89);
the `ElementsAs` decode of the env map is represented by its result. -/
structure HarnessK3sSandboxResourceModel : Type where
  image : Option String
  privileged : Bool
  envs : Except String (List (String × String))
  mounts : List ContainerResourceMountModel
  networks : List (String × ContainerResourceModelNetwork)
  deriving DecidableEq, Repr

/-- `HarnessK3sResourceModel` (harness_k3s_resource.go lines 45-59); the
`timeouts` attribute is carried by the `timeoutErr` parameter of
`createK3s` (the embedded result of `Timeouts.Create`). -/
structure HarnessK3sResourceModel : Type where
  id : String
  name : String
  inventorySeed : String
  skipped : Bool
  image : Option String
  disableCni : Bool
  disableTraefik : Bool
  disableMetricsServer : Bool
  registries : Option (List (String × RegistryResourceModel))
  networks : Option (List (String × ContainerResourceModelNetwork))
  sandbox : Option HarnessK3sSandboxResourceModel
  deriving DecidableEq, Repr

/-- The provider-global k3s harness configuration
(`r.store.providerResourceData.Harnesses.K3s`), present when both the
`Harnesses` block and its `K3s` block are non-nil. -/
structure ProviderK3sConfig : Type where
  registries : List (String × RegistryResourceModel)
  networks : List ContainerResourceModelNetwork
  deriving DecidableEq, Repr

/-- A `k3s.Option` passed to `k3s.New`, one constructor per `k3s.With...`
call made by `HarnessK3sResource.Create`; image references are carried as
the parsed reference string. -/
inductive K3sOption : Type
  | withCniDisabled : Bool → K3sOption
  | withTraefikDisabled : Bool → K3sOption
  | withMetricsServerDisabled : Bool → K3sOption
  | withImageRef : String → K3sOption
  | withSandboxImageRef : String → K3sOption
  | withSandboxMounts : String → String → K3sOption
  | withSandboxNetworks : String → K3sOption
  | withSandboxEnv : List (String × String) → K3sOption
  | withAuthFromKeychain : String → K3sOption
  | withAuthFromStatic : String → String → String → String → K3sOption
  | withRegistryMirror : String → List String → K3sOption
  | withNetworks : List String → K3sOption
  deriving DecidableEq, Repr

/-- Everything observable about one `Create` invocation: the diagnostics
produced, the state persisted through `resp.State.Set` (if reached), the
identifiers stored into the runtime registry `r.store.harnesses`, whether
`harness.Setup()` was invoked, and the option list passed to `k3s.New`
(`none` when `Create` aborts before assembling it). -/
structure CreateOutcome : Type where
  diags : List Diag
  state : Option HarnessK3sResourceModel
  registrySet : List String
  setupInvoked : Bool
  kopts : Option (List K3sOption)
  deriving DecidableEq, Repr

/-- The image-reference step of `Create` (harness_k3s_resource.go lines
235-242): parse the declared image, aborting with an
`invalid resource input` error on failure. -/
def imageOpts (parseRef : String → Except String String) :
    Option String → Except Diag (List K3sOption)
  | none => Except.ok []
  | some img =>
    match parseRef img with
    | Except.error e =>
      Except.error (Diag.err "invalid resource input" ("invalid image reference: " ++ e))
    | Except.ok ref => Except.ok [K3sOption.withImageRef ref]

/-- The mount loop of `Create` (harness_k3s_resource.go lines 260-272):
resolve every mount source with `filepath.Abs`, aborting on the first
failure. -/
def resolveMounts (absPath : String → Except String String) :
    List ContainerResourceMountModel → Except String (List K3sOption)
  | [] => Except.ok []
  | m :: rest =>
    match absPath m.source with
    | Except.error e => Except.error e
    | Except.ok src =>
      match resolveMounts absPath rest with
      | Except.error e => Except.error e
      | Except.ok os => Except.ok (K3sOption.withSandboxMounts src m.destination :: os)

/-- Mounts, networks and envs of the sandbox block of `Create`
(harness_k3s_resource.go lines 260-283), after the sandbox image step;
`iopts` are the options accumulated by that step. -/
def sandboxRest (absPath : String → Except String String)
    (sb : HarnessK3sSandboxResourceModel) (iopts : List K3sOption) :
    Except (Option Diag) (List K3sOption) :=
  match resolveMounts absPath sb.mounts with
  | Except.error e =>
    Except.error (some (Diag.err "invalid resource input" ("invalid mount source: " ++ e)))
  | Except.ok mopts =>
    match sb.envs with
    | Except.error e =>
      Except.error (some (Diag.err "invalid resource input" ("invalid envs input: " ++ e)))
    | Except.ok envs =>
      Except.ok (iopts ++ mopts
        ++ sb.networks.map (fun p => K3sOption.withSandboxNetworks p.2.name)
        ++ [K3sOption.withSandboxEnv envs])

/-- The sandbox block of `Create` (harness_k3s_resource.go lines 244-284).
`preErr` records whether the diagnostics already hold an error when the
block is entered; in that case the `HasError` check after decoding the
sandbox object returns early without adding a new diagnostic
(`Except.error none`). -/
def sandboxOpts (parseRef absPath : String → Except String String) (preErr : Bool) :
    Option HarnessK3sSandboxResourceModel → Except (Option Diag) (List K3sOption)
  | none => Except.ok []
  | some sb =>
    if preErr then Except.error none
    else
      match sb.image with
      | some img =>
        match parseRef img with
        | Except.error e =>
          Except.error (some (Diag.err "invalid resource input"
            ("invalid sandbox image reference: " ++ e)))
        | Except.ok ref => sandboxRest absPath sb [K3sOption.withSandboxImageRef ref]
      | none => sandboxRest absPath sb []

/-- The network-name collection loop over the resource-declared networks
map (harness_k3s_resource.go lines 291-296). -/
def collectNetworkNames (nets : List (String × ContainerResourceModelNetwork)) :
    List String :=
  nets.foldl (fun acc p => acc ++ [p.2.name]) []

/-- The provider-global network append loop
(harness_k3s_resource.go lines 304-306). -/
def appendProviderNetworks (acc : List String)
    (nets : List ContainerResourceModelNetwork) : List String :=
  nets.foldl (fun a v => a ++ [v.name]) acc

/-- The registry merge loop (harness_k3s_resource.go lines 300-302): every
provider-global entry is assigned into the resource-declared map, so the
provider-global entry overwrites on a key collision. -/
def mergeRegistries (res prov : List (String × RegistryResourceModel)) :
    List (String × RegistryResourceModel) :=
  prov.foldl (fun m p => mapSet m p.1 p.2) res

/-- The auth-resolution block of the per-registry loop
(harness_k3s_resource.go lines 311-317): ambient keychain lookup when all
three fields are null, the static fields as given otherwise. -/
def authOpts (rname : String) : Option RegistryResourceAuthModel → List K3sOption
  | none => []
  | some a =>
    if a.auth.isNone && a.password.isNone && a.username.isNone then
      [K3sOption.withAuthFromKeychain rname]
    else
      [K3sOption.withAuthFromStatic rname
        (optString a.username) (optString a.password) (optString a.auth)]

/-- The per-registry option loop (harness_k3s_resource.go lines 310-327):
auth resolution (keychain when all three fields are null, static
otherwise) and mirror endpoint decoding, which aborts on failure. -/
def registryOpts : List (String × RegistryResourceModel) → Except String (List K3sOption)
  | [] => Except.ok []
  | (rname, rdata) :: rest =>
    match rdata.mirror with
    | none =>
      match registryOpts rest with
      | Except.error e => Except.error e
      | Except.ok os => Except.ok (authOpts rname rdata.auth ++ os)
    | some mir =>
      match mir.endpoints with
      | Except.error e => Except.error e
      | Except.ok eps =>
        match registryOpts rest with
        | Except.error e => Except.error e
        | Except.ok os =>
          Except.ok (authOpts rname rdata.auth
            ++ [K3sOption.withRegistryMirror rname eps] ++ os)

/-- The option-assembly portion of `Create`
(harness_k3s_resource.go lines 229-329), from the base toggle options to
the final `WithNetworks` append. `Except.error none` is the early return
caused by a pre-existing error diagnostic at the sandbox `HasError` check;
`Except.error (some d)` aborts with the new diagnostic `d`. -/
def assembleKopts (parseRef absPath : String → Except String String)
    (provK3s : Option ProviderK3sConfig) (preErr : Bool)
    (data : HarnessK3sResourceModel) : Except (Option Diag) (List K3sOption) :=
  let base : List K3sOption :=
    [K3sOption.withCniDisabled data.disableCni,
     K3sOption.withTraefikDisabled data.disableTraefik,
     K3sOption.withMetricsServerDisabled data.disableMetricsServer]
  match imageOpts parseRef data.image with
  | Except.error d => Except.error (some d)
  | Except.ok iopts =>
    match sandboxOpts parseRef absPath preErr data.sandbox with
    | Except.error od => Except.error od
    | Except.ok sopts =>
      let registries0 := data.registries.getD []
      let networks0 := collectNetworkNames (data.networks.getD [])
      let registries :=
        match provK3s with
        | none => registries0
        | some pc => mergeRegistries registries0 pc.registries
      let networks :=
        match provK3s with
        | none => networks0
        | some pc => appendProviderNetworks networks0 pc.networks
      match registryOpts registries with
      | Except.error _ =>
        Except.error (some (Diag.err "failed to convert mirror endpoints" "..."))
      | Except.ok ropts =>
        Except.ok (base ++ iopts ++ sopts ++ ropts ++ [K3sOption.withNetworks networks])

/-- The default create timeout (harness_k3s_resource.go line 24), in
seconds. -/
def defaultHarnessK3sCreateTimeout : Nat := 5 * 60

/-- `HarnessK3sResource.Create` (harness_k3s_resource.go lines 203-349).
Parameters stand for the observable results of the external collaborators:
`labels` is the provider runtime label filter, `getFeats` the result of
`Inventory.GetFeatures` inside `ShouldSkip`, `parseRef` is
`name.ParseReference`, `absPath` is `filepath.Abs`, `timeoutErr` whether
`Timeouts.Create` produced error diagnostics, `k3sNewRes` the result of
`k3s.New`, and `setupRes` the result of `harness.Setup()(ctx)` (a timeout
expiry surfaces as an error here). -/
def createK3s (labels : List (String × String))
    (getFeats : Except String (List Feature))
    (parseRef absPath : String → Except String String)
    (provK3s : Option ProviderK3sConfig) (timeoutErr : Bool)
    (k3sNewRes : Except String Unit) (setupRes : Except String Unit)
    (data : HarnessK3sResourceModel) : CreateOutcome :=
  match getFeats with
  | Except.error e =>
    { diags := [Diag.err "failed to get features from harness" e],
      state := none, registrySet := [], setupInvoked := false, kopts := none }
  | Except.ok feats =>
    let skipped := shouldSkip labels feats
    let data1 := { data with skipped := skipped }
    if skipped then
      { diags := [Diag.warn ("skipping harness [" ++ data1.id ++ "] creation")
          "given provider runtime labels do not match feature labels"],
        state := some data1, registrySet := [], setupInvoked := false, kopts := none }
    else
      let tdiags : List Diag :=
        if timeoutErr then [Diag.err "timeouts create" "..."] else []
      match assembleKopts parseRef absPath provK3s timeoutErr data1 with
      | Except.error none =>
        { diags := tdiags, state := none, registrySet := [],
          setupInvoked := false, kopts := none }
      | Except.error (some d) =>
        { diags := tdiags ++ [d], state := none, registrySet := [],
          setupInvoked := false, kopts := none }
      | Except.ok kopts =>
        match k3sNewRes with
        | Except.error e =>
          { diags := tdiags ++ [Diag.err "failed to initialize k3s harness" e],
            state := none, registrySet := [], setupInvoked := false,
            kopts := some kopts }
        | Except.ok _ =>
          match setupRes with
          | Except.error e =>
            { diags := tdiags ++ [Diag.err "failed to setup harness" e],
              state := none, registrySet := [data1.id], setupInvoked := true,
              kopts := some kopts }
          | Except.ok _ =>
            { diags := tdiags, state := some data1, registrySet := [data1.id],
              setupInvoked := true, kopts := some kopts }

/-- Modelled from the spec: the inventory backing store (the
`internal/inventory` package is not under src/; only its caller
`HarnessResource.ModifyPlan` is). An inventory owns a set of harness
identifiers and the features registered against each. -/
structure InventoryState : Type where
  harnesses : List String
  features : List (String × List Feature)
  deriving DecidableEq, Repr

/-- Modelled from the spec: `AddHarness` is an idempotent insert into the
set of harness identifiers; it reports whether the identifier was newly
added. -/
def addHarness (s : InventoryState) (id : String) : InventoryState × Bool :=
  if s.harnesses.contains id then (s, false)
  else ({ s with harnesses := s.harnesses ++ [id] }, true)

/-- Modelled from the spec: `AddHarness` fails only on a backing-store
error, represented by the `backErr` parameter; it never fails because the
harness already exists. -/
def addHarnessE (backErr : Option String) (s : InventoryState) (id : String) :
    Except String (InventoryState × Bool) :=
  match backErr with
  | some e => Except.error e
  | none => Except.ok (addHarness s id)

/-- Modelled from the spec: `GetFeatures` returns all features registered
against the harness, the empty list when none are. -/
def getFeatures (s : InventoryState) (id : String) : List Feature :=
  (mapGet s.features id).getD []

/-- Sample parse/abs oracle that accepts every input unchanged. -/
def parseOk : String → Except String String := fun s => Except.ok s

/-- A sample resource model used by concrete witnesses. -/
def sampleData : HarnessK3sResourceModel :=
  { id := "h-abc", name := "h", inventorySeed := "seed", skipped := false,
    image := none, disableCni := false, disableTraefik := true,
    disableMetricsServer := true, registries := none, networks := none,
    sandbox := none }

/-- A sample sandbox model used by concrete witnesses. -/
def sampleSandbox : HarnessK3sSandboxResourceModel :=
  { image := none, privileged := false, envs := Except.ok [],
    mounts := [], networks := [] }

theorem mapGet_mapSet_self {α : Type} (m : List (String × α)) (k : String) (v : α) :
    mapGet (mapSet m k v) k = some v := by
  induction m with
  | nil => simp [mapSet, mapGet]
  | cons p rest ih =>
    by_cases h : p.1 = k
    · simp [mapSet, h, mapGet]
    · simp [mapSet, h, mapGet, ih]

theorem mapGet_mapSet_ne {α : Type} (m : List (String × α)) (k k2 : String) (v : α)
    (hne : k2 ≠ k) : mapGet (mapSet m k v) k2 = mapGet m k2 := by
  induction m with
  | nil => simp [mapSet, mapGet, hne.symm]
  | cons p rest ih =>
    by_cases h : p.1 = k
    · by_cases h2 : p.1 = k2
      · exact absurd (h2.symm.trans h) hne
      · simp [mapSet, h, mapGet, hne.symm, h2]
    · simp [mapSet, h, mapGet, ih]

theorem mapGet_eq_none_of_not_mem {α : Type} (m : List (String × α)) (k : String)
    (h : ¬ k ∈ m.map Prod.fst) : mapGet m k = none := by
  induction m with
  | nil => rfl
  | cons p rest ih =>
    simp only [List.map_cons, List.mem_cons] at h
    push_neg at h
    have hne : ¬ p.1 = k := fun he => h.1 he.symm
    simp [mapGet, hne, ih h.2]

theorem mergeRegistries_cons (res : List (String × RegistryResourceModel))
    (p : String × RegistryResourceModel) (rest : List (String × RegistryResourceModel)) :
    mergeRegistries res (p :: rest) = mergeRegistries (mapSet res p.1 p.2) rest := rfl

theorem mergeRegistries_get_of_none (res prov : List (String × RegistryResourceModel))
    (k : String) (h : mapGet prov k = none) :
    mapGet (mergeRegistries res prov) k = mapGet res k := by
  revert h
  induction prov generalizing res with
  | nil => intro h; rfl
  | cons p rest ih =>
    intro h
    by_cases hpk : p.1 = k
    · simp [mapGet, hpk] at h
    · rw [mergeRegistries_cons, ih _ (by simpa [mapGet, hpk] using h),
        mapGet_mapSet_ne _ _ _ _ (fun he => hpk he.symm)]

theorem mergeRegistries_get_of_some (res prov : List (String × RegistryResourceModel))
    (k : String) (v : RegistryResourceModel)
    (hnd : (prov.map Prod.fst).Nodup) (h : mapGet prov k = some v) :
    mapGet (mergeRegistries res prov) k = some v := by
  revert hnd h
  induction prov generalizing res with
  | nil => intro hnd h; simp [mapGet] at h
  | cons p rest ih =>
    intro hnd h
    rw [List.map_cons] at hnd
    rw [mergeRegistries_cons]
    by_cases hpk : p.1 = k
    · have hv : v = p.2 := by
        simp [mapGet, hpk] at h
        exact h.symm
      have hnk : ¬ k ∈ rest.map Prod.fst := by
        have h1 := (List.nodup_cons.mp hnd).1
        rwa [hpk] at h1
      rw [mergeRegistries_get_of_none _ _ _ (mapGet_eq_none_of_not_mem _ _ hnk), hv,
        ← hpk, mapGet_mapSet_self]
    · exact ih _ (List.nodup_cons.mp hnd).2
        (by simpa [mapGet, hpk] using h)

/-- C1: `ShouldSkip` returns false when the runtime label filter is empty;
for any filter it returns true if and only if the filter is non-empty and
some feature has some filter key with a value different from the filter
value (a feature lacking the key imposes no constraint; the result is the
OR over all feature/key pairs). -/
theorem shouldSkip_correct (filter : List (String × String)) (feats : List Feature) :
    (filter = [] → shouldSkip filter feats = false) ∧
    (shouldSkip filter feats = true ↔
      filter ≠ [] ∧ ∃ f ∈ feats, ∃ p ∈ filter, ∃ fv,
        mapGet f.labels p.1 = some fv ∧ fv ≠ p.2) := by
  constructor
  · intro h
    subst h
    simp [shouldSkip]
  · by_cases hf : filter = []
    · subst hf
      simp [shouldSkip]
    · unfold shouldSkip
      rw [if_neg (by simp [List.isEmpty_iff, hf])]
      simp only [List.any_eq_true, ne_eq, hf, not_false_iff, true_and]
      constructor
      · rintro ⟨f, hfmem, p, hpmem, hmatch⟩
        refine ⟨f, hfmem, p, hpmem, ?_⟩
        cases hg : mapGet f.labels p.1 with
        | none => rw [hg] at hmatch; simp at hmatch
        | some fv =>
          rw [hg] at hmatch
          exact ⟨fv, rfl, by simpa [bne_iff_ne] using hmatch⟩
      · rintro ⟨f, hfmem, p, hpmem, fv, hg, hne⟩
        refine ⟨f, hfmem, p, hpmem, ?_⟩
        rw [hg]
        simpa [bne_iff_ne] using hne

/-- C1 witness: the two concrete spec examples, obtained from
`shouldSkip_correct`. -/
theorem shouldSkip_correct_witness :
    shouldSkip [("env", "prod")] [⟨[("env", "dev")]⟩] = true ∧
    shouldSkip [("env", "prod")] [⟨[]⟩] = false ∧
    shouldSkip [] [⟨[("env", "dev")]⟩] = false := by
  refine ⟨?_, ?_, ?_⟩
  · exact (shouldSkip_correct [("env", "prod")] [⟨[("env", "dev")]⟩]).2.mpr
      ⟨by decide, ⟨[("env", "dev")]⟩, by decide, ("env", "prod"), by decide,
        "dev", by decide, by decide⟩
  · by_contra hc
    have h := (shouldSkip_correct [("env", "prod")] [⟨[]⟩]).2.mp
      (by revert hc; decide)
    revert h
    decide
  · exact (shouldSkip_correct [] [⟨[("env", "dev")]⟩]).1 rfl

/-- C2: in the registry merge of `Create`, every key present in the
provider-global map maps to the provider-global entry in the result
(global overwrites resource on collision), and every key absent from the
provider-global map keeps its resource-declared binding. -/
theorem mergeRegistries_correct (res prov : List (String × RegistryResourceModel))
    (k : String) (hnd : (prov.map Prod.fst).Nodup) :
    (∀ v, mapGet prov k = some v → mapGet (mergeRegistries res prov) k = some v) ∧
    (mapGet prov k = none → mapGet (mergeRegistries res prov) k = mapGet res k) :=
  ⟨fun v h => mergeRegistries_get_of_some res prov k v hnd h,
   fun h => mergeRegistries_get_of_none res prov k h⟩

/-- A registry configuration with no blocks, used by concrete witnesses. -/
def regEmpty : RegistryResourceModel := ⟨none, none, none⟩

/-- A registry configuration with a username, used by concrete witnesses. -/
def regUser : RegistryResourceModel := ⟨some ⟨some "u", none, none⟩, none, none⟩

/-- A registry configuration with a password, used by concrete witnesses. -/
def regPass : RegistryResourceModel := ⟨some ⟨none, some "p", none⟩, none, none⟩

/-- C2 witness: the concrete spec example, resource registries a ↦ X and
provider registries a ↦ Y, b ↦ Z give a ↦ Y and b ↦ Z. -/
theorem mergeRegistries_correct_witness :
    mapGet (mergeRegistries [("a", regEmpty)] [("a", regUser), ("b", regPass)]) "a"
      = some regUser ∧
    mapGet (mergeRegistries [("a", regEmpty)] [("a", regUser), ("b", regPass)]) "b"
      = some regPass :=
  ⟨(mergeRegistries_correct [("a", regEmpty)] [("a", regUser), ("b", regPass)] "a"
      (by decide)).1 regUser (by decide),
   (mergeRegistries_correct [("a", regEmpty)] [("a", regUser), ("b", regPass)] "b"
      (by decide)).1 regPass (by decide)⟩

/-- C4: the planned harness identifier equals `name ++ "-" ++ Encode(seed)`;
it is a deterministic pure function of (name, seed), and for one name two
seeds whose encodings differ give different identifiers. -/
theorem modifyPlanId_correct (encode : String → Except String String)
    (n s e : String) (h : encode s = Except.ok e) :
    modifyPlanId encode n s = Except.ok (n ++ "-" ++ e) ∧
    modifyPlanId encode n s = modifyPlanId encode n s ∧
    (∀ s2 e2, encode s2 = Except.ok e2 → e ≠ e2 →
      n ++ "-" ++ e ≠ n ++ "-" ++ e2) := by
  refine ⟨by unfold modifyPlanId; rw [h], rfl, ?_⟩
  intro s2 e2 h2 hne heq
  apply hne
  have hd := congrArg String.data heq
  simp only [String.data_append] at hd
  exact String.ext (List.append_cancel_left hd)

/-- C4 witness: with the identity encoder, name `h` and seed `a` plan the
identifier `h-a`, and encodings `a` and `b` give distinct identifiers. -/
theorem modifyPlanId_correct_witness :
    modifyPlanId (fun s => Except.ok s) "h" "a" = Except.ok ("h" ++ "-" ++ "a") ∧
    ("h" ++ "-" ++ "a") ≠ ("h" ++ "-" ++ "b") := by
  have h := modifyPlanId_correct (fun s => Except.ok s) "h" "a" "a" rfl
  exact ⟨h.1, h.2.2 "b" "b" rfl (by decide)⟩

/-- C9: `AddHarness` is an idempotent insert: on a fresh identifier it
reports added=true, a duplicate call reports added=false, `GetFeatures` is
unaffected by the duplicate call, and with no backing-store error the
operation never fails (in particular never because the harness exists). -/
theorem addHarness_idempotent (s : InventoryState) (id : String)
    (h : s.harnesses.contains id = false) :
    (addHarness s id).2 = true ∧
    (addHarness (addHarness s id).1 id).2 = false ∧
    (∀ h2, getFeatures (addHarness (addHarness s id).1 id).1 h2
      = getFeatures (addHarness s id).1 h2) ∧
    (∀ s2 i2, addHarnessE none s2 i2 = Except.ok (addHarness s2 i2)) := by
  have h1 : addHarness s id = ({ s with harnesses := s.harnesses ++ [id] }, true) := by
    unfold addHarness
    rw [if_neg (by simpa using h)]
  have h2 : addHarness ({ s with harnesses := s.harnesses ++ [id] } : InventoryState) id
      = ({ s with harnesses := s.harnesses ++ [id] }, false) := by
    unfold addHarness
    rw [if_pos (by simp)]
  refine ⟨by rw [h1], by rw [h1, h2], fun h2x => by rw [h1, h2], fun s2 i2 => rfl⟩

/-- C9 witness: concrete double insertion into an empty inventory. -/
theorem addHarness_idempotent_witness :
    (addHarness ⟨[], []⟩ "h-abc").2 = true ∧
    (addHarness (addHarness ⟨[], []⟩ "h-abc").1 "h-abc").2 = false ∧
    getFeatures (addHarness (addHarness ⟨[], []⟩ "h-abc").1 "h-abc").1 "h-abc"
      = getFeatures (addHarness ⟨[], []⟩ "h-abc").1 "h-abc" := by
  have h := addHarness_idempotent ⟨[], []⟩ "h-abc" (by decide)
  exact ⟨h.1, h.2.1, h.2.2.1 "h-abc"⟩

theorem foldl_push_eq_append_map {β : Type} (f : β → String) (l : List β)
    (acc : List String) :
    l.foldl (fun a v => a ++ [f v]) acc = acc ++ l.map f := by
  induction l generalizing acc with
  | nil => simp
  | cons x xs ih => simp [List.foldl_cons, ih, List.append_assoc]

theorem collectNetworkNames_eq (nets : List (String × ContainerResourceModelNetwork)) :
    collectNetworkNames nets = nets.map (fun p => p.2.name) := by
  unfold collectNetworkNames
  exact (foldl_push_eq_append_map (fun p : String × ContainerResourceModelNetwork
    => p.2.name) nets []).trans (List.nil_append _)

theorem appendProviderNetworks_eq (acc : List String)
    (nets : List ContainerResourceModelNetwork) :
    appendProviderNetworks acc nets = acc ++ nets.map ContainerResourceModelNetwork.name := by
  unfold appendProviderNetworks
  exact foldl_push_eq_append_map ContainerResourceModelNetwork.name nets acc

/-- C3: when `Create` assembles its option list, the final `WithNetworks`
option holds the resource-declared network names first, then every
provider-global network name, duplicates preserved. -/
theorem assembleKopts_networks_order (parseRef absPath : String → Except String String)
    (pc : ProviderK3sConfig) (preErr : Bool) (data : HarnessK3sResourceModel)
    (resNets : List (String × ContainerResourceModelNetwork)) (ks : List K3sOption)
    (hres : data.networks = some resNets)
    (hok : assembleKopts parseRef absPath (some pc) preErr data = Except.ok ks) :
    ks.getLast? = some (K3sOption.withNetworks
      (resNets.map (fun p => p.2.name)
        ++ pc.networks.map ContainerResourceModelNetwork.name)) := by
  simp only [assembleKopts] at hok
  split at hok
  · exact absurd hok (by simp)
  · split at hok
    · exact absurd hok (by simp)
    · split at hok
      · exact absurd hok (by simp)
      · injection hok with hok
        rw [← hok, List.getLast?_concat, hres]
        rw [Option.getD_some, appendProviderNetworks_eq, collectNetworkNames_eq]

/-- C3 witness: resource networks named n1 plus provider networks n1, n2
yield the list n1, n1, n2 in the final WithNetworks option. -/
theorem assembleKopts_networks_order_witness :
    (List.getLast? [K3sOption.withCniDisabled false, K3sOption.withTraefikDisabled true,
      K3sOption.withMetricsServerDisabled true,
      K3sOption.withNetworks ["n1", "n1", "n2"]])
      = some (K3sOption.withNetworks ["n1", "n1", "n2"]) := by
  have h := assembleKopts_networks_order parseOk parseOk ⟨[], [⟨"n1"⟩, ⟨"n2"⟩]⟩ false
    { sampleData with networks := some [("k1", ⟨"n1"⟩)] } [("k1", ⟨"n1"⟩)]
    [K3sOption.withCniDisabled false, K3sOption.withTraefikDisabled true,
      K3sOption.withMetricsServerDisabled true,
      K3sOption.withNetworks ["n1", "n1", "n2"]] rfl (by decide)
  exact h

theorem registryOpts_mem (regs : List (String × RegistryResourceModel))
    (opts : List K3sOption) (rname : String) (rdata : RegistryResourceModel)
    (hmem : (rname, rdata) ∈ regs) (hok : registryOpts regs = Except.ok opts) :
    ∀ x ∈ authOpts rname rdata.auth, x ∈ opts := by
  revert hmem hok
  induction regs generalizing opts with
  | nil => intro hmem hok; cases hmem
  | cons hd rest ih =>
    intro hmem hok
    obtain ⟨n0, r0⟩ := hd
    rw [List.mem_cons] at hmem
    simp only [registryOpts] at hok
    split at hok
    · split at hok
      · exact absurd hok (by simp)
      · rename_i os hr
        injection hok with hok
        intro x hx
        rw [← hok]
        rcases hmem with heq | hmem2
        · rw [Prod.mk.injEq] at heq
          obtain ⟨rfl, rfl⟩ := heq
          exact List.mem_append_left _ hx
        · exact List.mem_append_right _ (ih os hmem2 hr x hx)
    · split at hok
      · exact absurd hok (by simp)
      · rename_i eps he
        split at hok
        · exact absurd hok (by simp)
        · rename_i os hr
          injection hok with hok
          intro x hx
          rw [← hok]
          rcases hmem with heq | hmem2
          · rw [Prod.mk.injEq] at heq
            obtain ⟨rfl, rfl⟩ := heq
            exact List.mem_append_left _ (List.mem_append_left _ hx)
          · exact List.mem_append_right _ (ih os hmem2 hr x hx)

/-- C5: for every registry whose configuration includes an Auth block, the
assembled options use the ambient keychain lookup keyed by the registry
name when all three explicit fields are unset, and the explicit static
fields exactly as given otherwise. -/
theorem registryOpts_auth_resolution (regs : List (String × RegistryResourceModel))
    (opts : List K3sOption) (rname : String) (rdata : RegistryResourceModel)
    (a : RegistryResourceAuthModel)
    (hmem : (rname, rdata) ∈ regs) (hauth : rdata.auth = some a)
    (hok : registryOpts regs = Except.ok opts) :
    ((a.username = none ∧ a.password = none ∧ a.auth = none) →
      K3sOption.withAuthFromKeychain rname ∈ opts) ∧
    (¬ (a.username = none ∧ a.password = none ∧ a.auth = none) →
      K3sOption.withAuthFromStatic rname (optString a.username) (optString a.password)
        (optString a.auth) ∈ opts) := by
  have hsub := registryOpts_mem regs opts rname rdata hmem hok
  rw [hauth] at hsub
  constructor
  · rintro ⟨h1, h2, h3⟩
    exact hsub _ (by simp [authOpts, h1, h2, h3])
  · intro hne
    apply hsub
    have hcond : (a.auth.isNone && a.password.isNone && a.username.isNone) = false := by
      rw [Bool.eq_false_iff]
      intro hc
      apply hne
      simp only [Bool.and_eq_true, Option.isNone_iff_eq_none] at hc
      exact ⟨hc.2, hc.1.2, hc.1.1⟩
    simp [authOpts, hcond]

/-- Concrete registries map for the C5 witness: r1 has an Auth block with
all fields unset, r2 has an Auth block with only the username set. -/
def regsW : List (String × RegistryResourceModel) :=
  [("r1", ⟨some ⟨none, none, none⟩, none, none⟩),
   ("r2", ⟨some ⟨some "u", none, none⟩, none, none⟩)]

/-- C5 witness: in the options assembled from `regsW`, r1 resolves to the
keychain lookup and r2 to the static credentials exactly as given. -/
theorem registryOpts_auth_resolution_witness :
    K3sOption.withAuthFromKeychain "r1"
      ∈ [K3sOption.withAuthFromKeychain "r1",
         K3sOption.withAuthFromStatic "r2" "u" "" ""] ∧
    K3sOption.withAuthFromStatic "r2" "u" "" ""
      ∈ [K3sOption.withAuthFromKeychain "r1",
         K3sOption.withAuthFromStatic "r2" "u" "" ""] := by
  constructor
  · exact (registryOpts_auth_resolution regsW
      [K3sOption.withAuthFromKeychain "r1", K3sOption.withAuthFromStatic "r2" "u" "" ""]
      "r1" ⟨some ⟨none, none, none⟩, none, none⟩ ⟨none, none, none⟩
      (by decide) rfl (by decide)).1 ⟨rfl, rfl, rfl⟩
  · exact (registryOpts_auth_resolution regsW
      [K3sOption.withAuthFromKeychain "r1", K3sOption.withAuthFromStatic "r2" "u" "" ""]
      "r2" ⟨some ⟨some "u", none, none⟩, none, none⟩ ⟨some "u", none, none⟩
      (by decide) rfl (by decide)).2 (fun h => Option.noConfusion h.1)

/-- C6: when skip evaluation returns true during Create, the state is
persisted with the Skipped flag set (plus the skip warning) and nothing
else happens: no option list is assembled, no handle is stored in the
runtime registry, and Setup is never invoked. -/
theorem createK3s_skip (labels : List (String × String))
    (getFeats : Except String (List Feature))
    (parseRef absPath : String → Except String String)
    (provK3s : Option ProviderK3sConfig) (timeoutErr : Bool)
    (k3sNewRes setupRes : Except String Unit) (data : HarnessK3sResourceModel)
    (feats : List Feature)
    (hg : getFeats = Except.ok feats) (hskip : shouldSkip labels feats = true) :
    createK3s labels getFeats parseRef absPath provK3s timeoutErr k3sNewRes setupRes data
      = { diags := [Diag.warn ("skipping harness [" ++ data.id ++ "] creation")
            "given provider runtime labels do not match feature labels"],
          state := some { data with skipped := true }, registrySet := [],
          setupInvoked := false, kopts := none } := by
  subst hg
  simp [createK3s, hskip]

/-- C6 witness: a concrete skipped creation. -/
theorem createK3s_skip_witness :
    createK3s [("env", "prod")] (Except.ok [⟨[("env", "dev")]⟩]) parseOk parseOk none
      false (Except.ok ()) (Except.ok ()) sampleData
      = { diags := [Diag.warn "skipping harness [h-abc] creation"
            "given provider runtime labels do not match feature labels"],
          state := some { sampleData with skipped := true }, registrySet := [],
          setupInvoked := false, kopts := none } := by
  have h := createK3s_skip [("env", "prod")] (Except.ok [⟨[("env", "dev")]⟩]) parseOk
    parseOk none false (Except.ok ()) (Except.ok ()) sampleData [⟨[("env", "dev")]⟩]
    rfl (by decide)
  exact h

/-- C7: when Setup fails (a timeout expiry surfaces here as an error),
Create reports the failure, persists no success state, and the handle
stored in the runtime registry before Setup remains registered; the
default create timeout is five minutes. -/
theorem createK3s_setup_failure (labels : List (String × String))
    (getFeats : Except String (List Feature))
    (parseRef absPath : String → Except String String)
    (provK3s : Option ProviderK3sConfig) (timeoutErr : Bool)
    (data : HarnessK3sResourceModel) (feats : List Feature)
    (kopts : List K3sOption) (e : String)
    (hg : getFeats = Except.ok feats)
    (hns : shouldSkip labels feats = false)
    (hk : assembleKopts parseRef absPath provK3s timeoutErr { data with skipped := false }
      = Except.ok kopts) :
    createK3s labels getFeats parseRef absPath provK3s timeoutErr
        (Except.ok ()) (Except.error e) data
      = { diags := (if timeoutErr then [Diag.err "timeouts create" "..."] else [])
            ++ [Diag.err "failed to setup harness" e],
          state := none, registrySet := [data.id], setupInvoked := true,
          kopts := some kopts }
      ∧ defaultHarnessK3sCreateTimeout = 5 * 60 := by
  subst hg
  refine ⟨?_, rfl⟩
  simp [createK3s, hns, hk]

/-- C7 witness: a concrete failed setup leaves the handle registered and
no state persisted. -/
theorem createK3s_setup_failure_witness :
    createK3s [] (Except.ok []) parseOk parseOk none false
        (Except.ok ()) (Except.error "boom") sampleData
      = { diags := [Diag.err "failed to setup harness" "boom"],
          state := none, registrySet := ["h-abc"], setupInvoked := true,
          kopts := some [K3sOption.withCniDisabled false,
            K3sOption.withTraefikDisabled true,
            K3sOption.withMetricsServerDisabled true, K3sOption.withNetworks []] } := by
  have h := createK3s_setup_failure [] (Except.ok []) parseOk parseOk none false
    sampleData [] [K3sOption.withCniDisabled false, K3sOption.withTraefikDisabled true,
      K3sOption.withMetricsServerDisabled true, K3sOption.withNetworks []] "boom"
    rfl (by decide) (by decide)
  simpa using h.1

/-- C8: a malformed harness image reference, a malformed sandbox image
reference, or a sandbox mount source that fails absolute-path resolution
aborts Create with an `invalid resource input` error, persisting no state
and creating no runtime-registry entry. -/
theorem createK3s_invalid_input :
    (∀ (labels : List (String × String)) (getFeats : Except String (List Feature))
      (parseRef absPath : String → Except String String)
      (provK3s : Option ProviderK3sConfig) (k3sNewRes setupRes : Except String Unit)
      (data : HarnessK3sResourceModel) (feats : List Feature) (img e : String),
      getFeats = Except.ok feats → shouldSkip labels feats = false →
      data.image = some img → parseRef img = Except.error e →
      createK3s labels getFeats parseRef absPath provK3s false k3sNewRes setupRes data
        = { diags := [Diag.err "invalid resource input" ("invalid image reference: " ++ e)],
            state := none, registrySet := [], setupInvoked := false, kopts := none }) ∧
    (∀ (labels : List (String × String)) (getFeats : Except String (List Feature))
      (parseRef absPath : String → Except String String)
      (provK3s : Option ProviderK3sConfig) (k3sNewRes setupRes : Except String Unit)
      (data : HarnessK3sResourceModel) (feats : List Feature)
      (sb : HarnessK3sSandboxResourceModel) (img e : String),
      getFeats = Except.ok feats → shouldSkip labels feats = false →
      data.image = none → data.sandbox = some sb →
      sb.image = some img → parseRef img = Except.error e →
      createK3s labels getFeats parseRef absPath provK3s false k3sNewRes setupRes data
        = { diags := [Diag.err "invalid resource input"
              ("invalid sandbox image reference: " ++ e)],
            state := none, registrySet := [], setupInvoked := false, kopts := none }) ∧
    (∀ (labels : List (String × String)) (getFeats : Except String (List Feature))
      (parseRef absPath : String → Except String String)
      (provK3s : Option ProviderK3sConfig) (k3sNewRes setupRes : Except String Unit)
      (data : HarnessK3sResourceModel) (feats : List Feature)
      (sb : HarnessK3sSandboxResourceModel) (e : String),
      getFeats = Except.ok feats → shouldSkip labels feats = false →
      data.image = none → data.sandbox = some sb → sb.image = none →
      resolveMounts absPath sb.mounts = Except.error e →
      createK3s labels getFeats parseRef absPath provK3s false k3sNewRes setupRes data
        = { diags := [Diag.err "invalid resource input" ("invalid mount source: " ++ e)],
            state := none, registrySet := [], setupInvoked := false, kopts := none }) := by
  refine ⟨?_, ?_, ?_⟩
  · intro labels getFeats parseRef absPath provK3s k3sNewRes setupRes data feats img e
      hg hns himg hp
    subst hg
    simp [createK3s, hns, assembleKopts, imageOpts, himg, hp]
  · intro labels getFeats parseRef absPath provK3s k3sNewRes setupRes data feats sb img e
      hg hns himg hsb hsbi hp
    subst hg
    simp [createK3s, hns, assembleKopts, imageOpts, himg, hsb, sandboxOpts, hsbi, hp]
  · intro labels getFeats parseRef absPath provK3s k3sNewRes setupRes data feats sb e
      hg hns himg hsb hsbi hm
    subst hg
    simp [createK3s, hns, assembleKopts, imageOpts, himg, hsb, sandboxOpts, hsbi,
      sandboxRest, hm]

/-- C8 witness: the three concrete invalid-input aborts. -/
theorem createK3s_invalid_input_witness :
    createK3s [] (Except.ok []) (fun _ => Except.error "bad ref") parseOk none false
        (Except.ok ()) (Except.ok ()) { sampleData with image := some "x" }
      = { diags := [Diag.err "invalid resource input" "invalid image reference: bad ref"],
          state := none, registrySet := [], setupInvoked := false, kopts := none } ∧
    createK3s [] (Except.ok []) (fun _ => Except.error "bad ref") parseOk none false
        (Except.ok ()) (Except.ok ())
        { sampleData with sandbox := some { sampleSandbox with image := some "y" } }
      = { diags := [Diag.err "invalid resource input"
            "invalid sandbox image reference: bad ref"],
          state := none, registrySet := [], setupInvoked := false, kopts := none } ∧
    createK3s [] (Except.ok []) parseOk (fun _ => Except.error "no cwd") none false
        (Except.ok ()) (Except.ok ())
        { sampleData with
          sandbox := some { sampleSandbox with mounts := [⟨"src", "dst"⟩] } }
      = { diags := [Diag.err "invalid resource input" "invalid mount source: no cwd"],
          state := none, registrySet := [], setupInvoked := false, kopts := none } := by
  refine ⟨?_, ?_, ?_⟩
  · have h := createK3s_invalid_input.1 [] (Except.ok [])
      (fun _ => Except.error "bad ref") parseOk none (Except.ok ()) (Except.ok ())
      { sampleData with image := some "x" } [] "x" "bad ref" rfl (by decide) rfl rfl
    simpa using h
  · have h := createK3s_invalid_input.2.1 [] (Except.ok [])
      (fun _ => Except.error "bad ref") parseOk none (Except.ok ()) (Except.ok ())
      { sampleData with sandbox := some { sampleSandbox with image := some "y" } } []
      { sampleSandbox with image := some "y" } "y" "bad ref" rfl (by decide) rfl rfl rfl rfl
    simpa using h
  · have h := createK3s_invalid_input.2.2 [] (Except.ok []) parseOk
      (fun _ => Except.error "no cwd") none (Except.ok ()) (Except.ok ())
      { sampleData with sandbox := some { sampleSandbox with mounts := [⟨"src", "dst"⟩] } }
      [] { sampleSandbox with mounts := [⟨"src", "dst"⟩] } "no cwd"
      rfl (by decide) rfl rfl rfl (by decide)
    simpa using h

/-- C10 counterexample: when timeout resolution produces error diagnostics
and a sandbox block is present, Create does return early: the diagnostics
hold exactly the timeout error, yet no options are assembled, no handle is
registered and Setup is never invoked, refuting the claim that execution
always continues through registration and Setup. -/
theorem createK3s_timeout_diags_counterexample :
    createK3s [] (Except.ok []) parseOk parseOk none true (Except.ok ()) (Except.ok ())
        { sampleData with sandbox := some sampleSandbox }
      = { diags := [Diag.err "timeouts create" "..."], state := none,
          registrySet := [], setupInvoked := false, kopts := none } := by
  decide

/-- C10 amended: error diagnostics from timeout resolution do not abort
Create at the point they are appended; when no sandbox block is present,
execution continues through option assembly, runtime-registry registration
and Setup (whatever the Setup result); with a sandbox block present the
accumulated error triggers the HasError check after sandbox decoding and
Create returns before assembling options. -/
theorem createK3s_timeout_diags_amended (labels : List (String × String))
    (getFeats : Except String (List Feature))
    (parseRef absPath : String → Except String String)
    (provK3s : Option ProviderK3sConfig) (setupRes : Except String Unit)
    (data : HarnessK3sResourceModel) (feats : List Feature) (kopts : List K3sOption)
    (hg : getFeats = Except.ok feats) (hns : shouldSkip labels feats = false)
    (hsb : data.sandbox = none)
    (hk : assembleKopts parseRef absPath provK3s true { data with skipped := false }
      = Except.ok kopts) :
    (createK3s labels getFeats parseRef absPath provK3s true
        (Except.ok ()) setupRes data).kopts = some kopts ∧
    (createK3s labels getFeats parseRef absPath provK3s true
        (Except.ok ()) setupRes data).registrySet = [data.id] ∧
    (createK3s labels getFeats parseRef absPath provK3s true
        (Except.ok ()) setupRes data).setupInvoked = true ∧
    Diag.err "timeouts create" "..."
      ∈ (createK3s labels getFeats parseRef absPath provK3s true
          (Except.ok ()) setupRes data).diags := by
  subst hg
  cases setupRes <;> simp [createK3s, hns, hk]

/-- C10 amended witness: a concrete creation with timeout error
diagnostics and no sandbox block runs through registration and Setup. -/
theorem createK3s_timeout_diags_amended_witness :
    (createK3s [] (Except.ok []) parseOk parseOk none true
        (Except.ok ()) (Except.ok ()) sampleData).setupInvoked = true ∧
    (createK3s [] (Except.ok []) parseOk parseOk none true
        (Except.ok ()) (Except.ok ()) sampleData).registrySet = ["h-abc"] := by
  have h := createK3s_timeout_diags_amended [] (Except.ok []) parseOk parseOk none
    (Except.ok ()) sampleData []
    [K3sOption.withCniDisabled false, K3sOption.withTraefikDisabled true,
      K3sOption.withMetricsServerDisabled true, K3sOption.withNetworks []]
    rfl (by decide) rfl (by decide)
  exact ⟨h.2.2.1, by simpa using h.2.1⟩

end Imagetest
